import Mathlib

/-!
Verification of the Sphinx configuration module `doc/source/conf.py` of the
Mat4FVCOM repository.

The module body is a straight-line sequence of assignments of literal values
to configuration names, plus one computed value:
`matlab_src_dir = os.path.abspath('../../src')`.

`os.path.abspath(p)` for a relative `p` is `normpath(join(cwd, p))`, where
`cwd` is the current working directory of the process at evaluation time.
We model an absolute directory as its list of path components from the root,
and model POSIX `normpath` on component lists (empty and `.` components are
dropped; `..` removes the preceding component, or is dropped at the root,
matching `posixpath.normpath` on absolute paths).

The loader is therefore a function of the current working directory; every
field other than `matlab_src_dir` is a literal.
-/

namespace Mat4FVCOM

/-- An absolute filesystem path, as its components from the root. -/
abbrev Path := List String

/-- Accumulator-based normalization of a component list, as `posixpath.normpath`
behaves on absolute paths: `""` and `"."` are dropped, `".."` removes the
previous surviving component (or is dropped at the root). The accumulator
holds the surviving components in reverse. -/
def normpathAux : List String → List String → List String
  | acc, [] => acc.reverse
  | acc, c :: rest =>
    if c = "." ∨ c = "" then normpathAux acc rest
    else if c = ".." then
      match acc with
      | [] => normpathAux [] rest
      | _ :: acc2 => normpathAux acc2 rest
    else normpathAux (c :: acc) rest

/-- POSIX path normalization of an absolute path given as components. -/
def normpath (l : List String) : List String := normpathAux [] l

/-- Model of `os.path.abspath(rel)` for a relative path `rel`, evaluated in a
process whose current working directory is `cwd`:
`normpath(join(cwd, rel))`. -/
def abspath (cwd : Path) (rel : List String) : Path := normpath (cwd ++ rel)

/-- The configuration record produced by evaluating `conf.py`:
one field per module-level configuration name. -/
structure SphinxConfig where
  project : String
  copyright : String
  author : String
  release : String
  matlab_src_dir : Path
  extensions : List String
  primary_domain : String
  source_suffix : List (String × String)
  mathjax_path : String
  templates_path : List String
  exclude_patterns : List String
  language : String
  html_theme : String
  html_static_path : List String
deriving DecidableEq, Repr

/-- The configuration loader: evaluating the module body of
`doc/source/conf.py` in a process whose current working directory is `cwd`.
Every field is a literal from the source except `matlab_src_dir`, which is
`os.path.abspath('../../src')`. -/
def loadConf (cwd : Path) : SphinxConfig :=
  { project := "Mat4FVCOM"
    copyright := "2025, li12242"
    author := "li12242"
    release := "v1"
    matlab_src_dir := abspath cwd ["..", "..", "src"]
    extensions := ["sphinxcontrib.matlab", "sphinx.ext.autodoc",
                   "sphinx.ext.mathjax", "myst_parser"]
    primary_domain := "mat"
    source_suffix := [(".rst", "restructuredtext"),
                      (".txt", "restructuredtext"),
                      (".md", "markdown")]
    mathjax_path := "es5/tex-chtml.js"
    templates_path := ["_templates"]
    exclude_patterns := []
    language := "zh_CN"
    html_theme := "sphinx_rtd_theme"
    html_static_path := ["_static"] }

/-- A configuration value, for the assignment-trace view of the module body. -/
inductive ConfValue where
  | str (s : String)
  | strs (l : List String)
  | sufMap (m : List (String × String))
  | path (p : Path)
deriving DecidableEq

/-- The module body of `conf.py` as its trace of top-level assignments, in
source order (lines 10-44). This is the complete list of assignment
statements in the file; nothing follows it. -/
def confAssignments (cwd : Path) : List (String × ConfValue) :=
  [("project", .str "Mat4FVCOM"),
   ("copyright", .str "2025, li12242"),
   ("author", .str "li12242"),
   ("release", .str "v1"),
   ("matlab_src_dir", .path (abspath cwd ["..", "..", "src"])),
   ("extensions", .strs ["sphinxcontrib.matlab", "sphinx.ext.autodoc",
                         "sphinx.ext.mathjax", "myst_parser"]),
   ("primary_domain", .str "mat"),
   ("source_suffix", .sufMap [(".rst", "restructuredtext"),
                              (".txt", "restructuredtext"),
                              (".md", "markdown")]),
   ("mathjax_path", .str "es5/tex-chtml.js"),
   ("templates_path", .strs ["_templates"]),
   ("exclude_patterns", .strs []),
   ("language", .str "zh_CN"),
   ("html_theme", .str "sphinx_rtd_theme"),
   ("html_static_path", .strs ["_static"])]

/-- The names of the fields of the configuration record, in source order. -/
def confFieldNames : List String :=
  ["project", "copyright", "author", "release", "matlab_src_dir",
   "extensions", "primary_domain", "source_suffix", "mathjax_path",
   "templates_path", "exclude_patterns", "language", "html_theme",
   "html_static_path"]

/-- The configuration record with `matlab_src_dir` replaced by a fixed value:
used to state that all other fields are independent of the working
directory. -/
def eraseSrcDir (c : SphinxConfig) : SphinxConfig :=
  { c with matlab_src_dir := [] }

/-- Processing a run of ordinary components (no `""`, `"."`, `".."`) just
pushes them onto the accumulator in reverse. -/
lemma normpathAux_append_normal (l rest acc : List String)
    (h : ∀ c ∈ l, c ≠ "" ∧ c ≠ "." ∧ c ≠ "..") :
    normpathAux acc (l ++ rest) = normpathAux (l.reverse ++ acc) rest := by
  induction l generalizing acc with
  | nil => simp
  | cons a t ih =>
    have ha := h a (by simp)
    simp only [List.cons_append, normpathAux]
    rw [if_neg (by tauto), if_neg ha.2.2, List.append_eq]
    rw [ih (a :: acc) (fun c hc => h c (by simp [hc]))]
    simp

/-- Resolving `../../src` against a normalized absolute directory `d` removes
the last two components of `d` and appends `src`. -/
lemma abspath_upup_src (d : Path)
    (h : ∀ c ∈ d, c ≠ "" ∧ c ≠ "." ∧ c ≠ "..") :
    abspath d ["..", "..", "src"] = d.dropLast.dropLast ++ ["src"] := by
  unfold abspath normpath
  rw [normpathAux_append_normal d _ [] h, List.append_nil]
  rcases hd : d.reverse with _ | ⟨a, _ | ⟨b, t⟩⟩
  · have hd2 : d = [] := by
      have := congrArg List.reverse hd
      simpa using this
    rw [hd2]
    decide
  · have hd2 : d = [a] := by
      have := congrArg List.reverse hd
      simpa using this
    rw [hd2]
    simp [normpathAux]
  · have hd2 : d = (t.reverse ++ [b]) ++ [a] := by
      have := congrArg List.reverse hd
      simpa [List.reverse_cons, List.append_assoc] using this
    rw [hd2]
    simp [normpathAux, List.dropLast_concat]

/-- C1 counterexample: the claim says `matlab_src_dir` always equals the
parent-of-parent of the configuration file's location joined with `src`.
With the configuration file at `/home/user/Mat4FVCOM/doc/source/conf.py`
but the loader invoked from working directory `/tmp`, the code yields
`/src`, not `/home/user/Mat4FVCOM/src`. -/
theorem matlab_src_dir_not_conf_relative :
    (loadConf ["tmp"]).matlab_src_dir ≠
      (["home", "user", "Mat4FVCOM", "doc",
        "source"].dropLast.dropLast ++ ["src"]) := by
  decide

/-- C1 (amended): `matlab_src_dir` equals the parent-of-parent of the
process's current working directory at load time joined with `src`; in
particular, when the loader is invoked from the configuration file's own
directory (a normalized absolute path), it equals the parent-of-parent of
the configuration file's location joined with `src`. -/
theorem matlab_src_dir_eq_parent2_of_cwd (confDir : Path)
    (h : ∀ c ∈ confDir, c ≠ "" ∧ c ≠ "." ∧ c ≠ "..") :
    (loadConf confDir).matlab_src_dir = confDir.dropLast.dropLast ++ ["src"] :=
  abspath_upup_src confDir h

/-- C1 witness: the amended statement at the concrete directory
`/home/user/Mat4FVCOM/doc/source`. -/
theorem matlab_src_dir_eq_parent2_of_cwd_witness :
    (loadConf ["home", "user", "Mat4FVCOM", "doc",
               "source"]).matlab_src_dir =
      (["home", "user", "Mat4FVCOM", "doc",
        "source"].dropLast.dropLast ++ ["src"]) :=
  matlab_src_dir_eq_parent2_of_cwd
    ["home", "user", "Mat4FVCOM", "doc", "source"] (by decide)

/-- C2: after loading, `extensions` is exactly the four plugin names, in
source order: the MATLAB domain, autodoc, mathjax, and the Markdown
parser. -/
theorem extensions_exact (cwd : Path) :
    (loadConf cwd).extensions =
      ["sphinxcontrib.matlab", "sphinx.ext.autodoc",
       "sphinx.ext.mathjax", "myst_parser"] :=
  rfl

/-- C3: after loading, `source_suffix` has exactly three entries, mapping
`.rst` and `.txt` to the restructured-text parser and `.md` to the Markdown
parser, and no others. -/
theorem source_suffix_exact (cwd : Path) :
    (loadConf cwd).source_suffix =
      [(".rst", "restructuredtext"), (".txt", "restructuredtext"),
       (".md", "markdown")] :=
  rfl

/-- C4: invoking the loader (from any working directory) yields a record
with `project = "Mat4FVCOM"`, `html_theme = "sphinx_rtd_theme"` and
`primary_domain = "mat"`. -/
theorem project_theme_domain (cwd : Path) :
    (loadConf cwd).project = "Mat4FVCOM" ∧
      (loadConf cwd).html_theme = "sphinx_rtd_theme" ∧
      (loadConf cwd).primary_domain = "mat" :=
  ⟨rfl, rfl, rfl⟩

/-- C5: the loader is deterministic: two successive invocations (in the same
working directory, the only ambient input) produce records with identical
values in every field. -/
theorem loadConf_deterministic (cwd1 cwd2 : Path) (h : cwd1 = cwd2) :
    loadConf cwd1 = loadConf cwd2 := by
  rw [h]

/-- C5 witness: two invocations from `/home` agree. -/
theorem loadConf_deterministic_witness :
    loadConf ["home"] = loadConf ["home"] :=
  loadConf_deterministic ["home"] ["home"] rfl

/-- C6: the module body assigns each configuration field exactly once: the
trace of assignment statements binds exactly the fourteen field names, each
a single time (the name sequence equals the duplicate-free field-name list),
and the trace is the whole module body, so no assignment follows the load. -/
theorem fields_assigned_once (cwd : Path) :
    (confAssignments cwd).map Prod.fst = confFieldNames ∧
      confFieldNames.Nodup :=
  ⟨rfl, by decide⟩

/-- C7: `templates_path` holds exactly the one entry `_templates`,
`exclude_patterns` holds exactly zero entries, and `html_static_path` holds
exactly the one entry `_static`. -/
theorem literal_path_lists (cwd : Path) :
    (loadConf cwd).templates_path = ["_templates"] ∧
      (loadConf cwd).exclude_patterns = [] ∧
      (loadConf cwd).html_static_path = ["_static"] :=
  ⟨rfl, rfl, rfl⟩

/-- C8: `language` equals the Simplified Chinese locale code `zh_CN`. -/
theorem language_zh_CN (cwd : Path) :
    (loadConf cwd).language = "zh_CN" :=
  rfl

/-- C9: for two invocations from different working directories, every field
except `matlab_src_dir` agrees: the records coincide once `matlab_src_dir`
is masked out. Only `matlab_src_dir` can depend on the working directory. -/
theorem only_matlab_src_dir_depends_on_cwd (cwd1 cwd2 : Path)
    (h : cwd1 ≠ cwd2) :
    eraseSrcDir (loadConf cwd1) = eraseSrcDir (loadConf cwd2) :=
  rfl

/-- C9 witness: invocations from `/a` and `/b` agree outside
`matlab_src_dir` (and do differ in `matlab_src_dir` itself). -/
theorem only_matlab_src_dir_depends_on_cwd_witness :
    eraseSrcDir (loadConf ["a"]) = eraseSrcDir (loadConf ["b"]) :=
  only_matlab_src_dir_depends_on_cwd ["a"] ["b"] (by decide)

/-- C10: `mathjax_path` is the literal relative path `es5/tex-chtml.js`; it
is not an absolute URL or absolute path: its character sequence does not
begin with the scheme prefix `http`, and its first character is not the
slash (code point 47). -/
theorem mathjax_path_relative (cwd : Path) :
    (loadConf cwd).mathjax_path = "es5/tex-chtml.js" ∧
      (loadConf cwd).mathjax_path.data.take 4 ≠ "http".data ∧
      (loadConf cwd).mathjax_path.data.head? ≠ some (Char.ofNat 47) :=
  ⟨rfl,
   (by decide : ("es5/tex-chtml.js").data.take 4 ≠ ("http").data),
   (by decide : ("es5/tex-chtml.js").data.head? ≠ some (Char.ofNat 47))⟩

end Mat4FVCOM
